import Mathlib

/-!
Verification of the session-orchestration and event-bridge layer of
OpenManusEnhanced: the backend `EventBus` and `AgentManager` services
(src/backend/server.js, services section) and the frontend
`WebSocketService` (src/frontend, WebSocketService.js), shallowly embedded
in Lean, together with theorems settling the frozen claims about them.

Modelling conventions:
* JS `Map`s become association lists; `Map.set` / `Map.get` / `Map.delete`
  are mirrored by `aset` / `alookup` / `aerase` (first-occurrence
  semantics; a JS map has unique keys, carried here as `Nodup` hypotheses
  on the key list where a theorem needs them).
* Callback functions are identified by a numeric identity (JS closures are
  compared with `===`); the behaviour of a callback when invoked is a
  parameter `run`, where `some msg` models a thrown exception with message
  `msg` and `none` a normal return.  A `try`/`catch` around an invocation
  becomes recording that `Option String` in the invocation log instead of
  aborting the surrounding loop.
* `Date.now()`-based fresh identifiers (subscription ids) are modelled by
  an explicit `nextId` counter; the generated execution id of a tool call
  and the identity of its result handler are parameters with freshness
  hypotheses.
* Effects (frames written to the worker socket, events published, the
  worker process being killed) are returned explicitly in outcome
  structures; a thrown JS error becomes an `error` field, and the returned
  state is then the state at the throw point (in the source, every throw
  happens before the first mutation of that operation).
-/

/-- `Map.get`: first value bound to `key`, if any. -/
def alookup {α β : Type} [DecidableEq α] : List (α × β) → α → Option β
  | [], _ => none
  | (k, v) :: rest, key => if k = key then some v else alookup rest key

/-- `Map.set`: replace the binding of `key` in place, or append a new one. -/
def aset {α β : Type} [DecidableEq α] : List (α × β) → α → β → List (α × β)
  | [], key, val => [(key, val)]
  | (k, v) :: rest, key, val =>
      if k = key then (k, val) :: rest else (k, v) :: aset rest key val

/-- `Map.delete`: drop the first binding of `key`. -/
def aerase {α β : Type} [DecidableEq α] : List (α × β) → α → List (α × β)
  | [], _ => []
  | (k, v) :: rest, key => if k = key then rest else (k, v) :: aerase rest key

/-- One inbound worker frame / published event (`server.js`): a `type`
plus the fields the correlation logic reads (`executionId`, `error`,
`result`); other payload fields are never inspected by the embedded code. -/
structure Event where
  type : String
  executionId : Option String := none
  error : Option String := none
  result : Option String := none
deriving DecidableEq, Repr

/-- The `EventBus` service (`server.js`): `subscribers` maps a session id
to a map of subscription id → callback; `eventSubscribers` maps an event
type to a map of session id to a map of subscription id → callback.
`nextId` models the `Date.now()`-and-random fresh subscription ids. -/
structure EventBus where
  subscribers : List (String × List (Nat × Nat))
  eventSubscribers : List (String × List (String × List (Nat × Nat)))
  nextId : Nat
deriving DecidableEq, Repr

/-- A bus with no subscriptions, as built by `new EventBus()`. -/
def EventBus.empty : EventBus :=
  { subscribers := [], eventSubscribers := [], nextId := 0 }

/-- `EventBus.subscribe(sessionId, callback)`: get-or-create the session's
subscriber map, add the callback under a fresh id, return the id. -/
def EventBus.subscribe (bus : EventBus) (sid : String) (cb : Nat) :
    Nat × EventBus :=
  let subId := bus.nextId
  let subs := (alookup bus.subscribers sid).getD []
  (subId,
   { bus with
       subscribers := aset bus.subscribers sid (aset subs subId cb),
       nextId := bus.nextId + 1 })

/-- `EventBus.unsubscribe(sessionId, subscriptionId)`: `false` when the
session has no subscriber map, otherwise `subscribers.delete(id)` — the
returned Bool says whether an entry was present and removed. -/
def EventBus.unsubscribe (bus : EventBus) (sid : String) (subId : Nat) :
    Bool × EventBus :=
  match alookup bus.subscribers sid with
  | none => (false, bus)
  | some subs =>
      ((alookup subs subId).isSome,
       { bus with subscribers := aset bus.subscribers sid (aerase subs subId) })

/-- `EventBus.subscribeToEvent(sessionId, eventType, callback)`:
get-or-create the per-type and per-session maps, add the callback under a
fresh id, return the id. -/
def EventBus.subscribeToEvent (bus : EventBus) (sid etype : String) (cb : Nat) :
    Nat × EventBus :=
  let subId := bus.nextId
  let evSubs := (alookup bus.eventSubscribers etype).getD []
  let sessSubs := (alookup evSubs sid).getD []
  (subId,
   { bus with
       eventSubscribers :=
         aset bus.eventSubscribers etype (aset evSubs sid (aset sessSubs subId cb)),
       nextId := bus.nextId + 1 })

/-- The entry-scan of `EventBus.unsubscribeFromEvent`: walk the
subscription entries in order and delete the first one whose callback is
(`===`) the given one; `none` when no entry matches. -/
def removeByCallback : List (Nat × Nat) → Nat → Option (List (Nat × Nat))
  | [], _ => none
  | (subId, c) :: rest, cb =>
      if c = cb then some rest
      else (removeByCallback rest cb).map (fun r => (subId, c) :: r)

/-- `EventBus.unsubscribeFromEvent(sessionId, eventType, callback)`:
identified by callback identity, not id; `false` when the type, the
session, or a matching entry is missing. -/
def EventBus.unsubscribeFromEvent (bus : EventBus) (sid etype : String)
    (cb : Nat) : Bool × EventBus :=
  match alookup bus.eventSubscribers etype with
  | none => (false, bus)
  | some evSubs =>
      match alookup evSubs sid with
      | none => (false, bus)
      | some sessSubs =>
          match removeByCallback sessSubs cb with
          | none => (false, bus)
          | some sessSubs' =>
              (true,
               { bus with
                   eventSubscribers :=
                     aset bus.eventSubscribers etype (aset evSubs sid sessSubs') })

/-- `EventBus.publish(sessionId, event)`: invoke every session-wide
subscriber of the session, then every event-type subscriber of
`(sessionId, event.type)`; each invocation is wrapped in `try`/`catch`
(the caught error is logged), so the result is the full invocation log
`(callback, thrown error if any)` and never an exception. -/
def EventBus.publish (bus : EventBus) (run : Nat → Event → Option String)
    (sid : String) (e : Event) : List (Nat × Option String) :=
  (match alookup bus.subscribers sid with
   | none => []
   | some subs => subs.map (fun p => (p.2, run p.2 e)))
  ++
  (match alookup bus.eventSubscribers e.type with
   | none => []
   | some evSubs =>
       match alookup evSubs sid with
       | none => []
       | some sessSubs => sessSubs.map (fun p => (p.2, run p.2 e)))

/-- Registry view: the callbacks registered session-wide for a session. -/
def EventBus.sessionCallbacks (bus : EventBus) (sid : String) : List Nat :=
  ((alookup bus.subscribers sid).getD []).map Prod.snd

/-- Registry view: the `(subscription id, callback)` entries registered
for one event type of one session. -/
def EventBus.typedSubs (bus : EventBus) (sid etype : String) :
    List (Nat × Nat) :=
  (alookup ((alookup bus.eventSubscribers etype).getD []) sid).getD []

/-- Registry view: the callbacks registered for one event type of one
session. -/
def EventBus.typedCallbacks (bus : EventBus) (sid etype : String) : List Nat :=
  (bus.typedSubs sid etype).map Prod.snd

/-- The callbacks a `publish` invokes, in invocation order. -/
def EventBus.publishCallbacks (bus : EventBus) (sid : String) (e : Event) :
    List Nat :=
  (bus.publish (fun _ _ => none) sid e).map Prod.fst

/-- The lifecycle states a handle's `status` field takes in `server.js`. -/
inductive AgentStatus
  | initializing
  | ready
  | running
  | human_control
  | stopped
deriving DecidableEq, Repr

/-- The status strings used by the source. -/
def AgentStatus.str : AgentStatus → String
  | .initializing => "initializing"
  | .ready => "ready"
  | .running => "running"
  | .human_control => "human_control"
  | .stopped => "stopped"

/-- One `agents`-map entry (`{process, status, options}`); `hasProcess`
models the truthiness of `agent.process` tested by `stopAgent`. -/
structure AgentHandle where
  status : AgentStatus
  hasProcess : Bool
deriving DecidableEq, Repr

/-- The `AgentManager` service state: the `agents` map (session id →
handle) and the `connections` map (session id → worker WebSocket; only
presence of the socket is ever branched on). -/
structure AgentManager where
  agents : List (String × AgentHandle)
  connections : List (String × Unit)
deriving DecidableEq, Repr

/-- An outbound frame written to a worker connection (`ws.send(...)`). -/
inductive Frame
  | command (cmd : String)
  | message (msg : String)
  | tool_execution (executionId toolName : String)
deriving DecidableEq, Repr

/-- The errors thrown by the embedded `AgentManager` operations, as
structured values; `JsError.message` rebuilds the exact source strings. -/
inductive JsError
  | agentAlreadyExists (sid : String)
  | agentNotFound (sid : String)
  | agentNotReadyToStart (actual : AgentStatus)
  | connectionNotFound (sid : String)
  | notHumanControl (actual : AgentStatus)
  | toolTimedOut
deriving DecidableEq, Repr

/-- The exact `new Error(...)` message strings of the source. -/
def JsError.message : JsError → String
  | .agentAlreadyExists sid => "Agent already exists for session " ++ sid
  | .agentNotFound sid => "Agent not found for session " ++ sid
  | .agentNotReadyToStart st =>
      "Agent is not ready to start (status: " ++ st.str ++ ")"
  | .connectionNotFound sid =>
      "WebSocket connection not found for session " ++ sid
  | .notHumanControl st =>
      "Agent must be in human control to execute tools (status: " ++ st.str ++ ")"
  | .toolTimedOut => "Tool execution timed out"

/-- Outcome of one `AgentManager` lifecycle operation: the manager state
after the call, the frames sent to the session's worker socket, the event
types published on the bus, whether `process.kill()` ran, and the thrown
error if any (in which case `state` is the unchanged pre-call state, as
every throw in the source precedes the first mutation). -/
structure OpOutcome where
  state : AgentManager
  sent : List Frame
  published : List String
  killed : Bool
  error : Option JsError
deriving DecidableEq, Repr

/-- `AgentManager.createAgent`: a second create for an existing session id
throws `Agent already exists` before any state change; otherwise the
handle is stored with status `initializing` and, on the success path of
the simulated connection callback (`server.js`), the connection is
stored, the status set to `ready`, `agent_initialized` is published and
the call resolves. -/
def AgentManager.createAgent (m : AgentManager) (sid : String) : OpOutcome :=
  if (alookup m.agents sid).isSome then
    { state := m, sent := [], published := [], killed := false,
      error := some (.agentAlreadyExists sid) }
  else
    { state :=
        { agents :=
            aset (aset m.agents sid { status := .initializing, hasProcess := true })
              sid { status := .ready, hasProcess := true },
          connections := aset m.connections sid () },
      sent := [], published := ["agent_initialized"], killed := false,
      error := none }

/-- `AgentManager.startAgent`: throws `Agent not found` without a handle,
`Agent is not ready to start` unless the status is `ready` or `stopped`,
`WebSocket connection not found` without a connection; otherwise sends the
`start` command, sets the status to `running` and publishes
`agent_started`. -/
def AgentManager.startAgent (m : AgentManager) (sid : String) : OpOutcome :=
  match alookup m.agents sid with
  | none =>
      { state := m, sent := [], published := [], killed := false,
        error := some (.agentNotFound sid) }
  | some agent =>
      if agent.status ≠ AgentStatus.ready ∧ agent.status ≠ AgentStatus.stopped then
        { state := m, sent := [], published := [], killed := false,
          error := some (.agentNotReadyToStart agent.status) }
      else
        match alookup m.connections sid with
        | none =>
            { state := m, sent := [], published := [], killed := false,
              error := some (.connectionNotFound sid) }
        | some _ =>
            { state :=
                { m with agents := aset m.agents sid { agent with status := .running } },
              sent := [Frame.command "start"], published := ["agent_started"],
              killed := false, error := none }

/-- `AgentManager.stopAgent`: throws `Agent not found` without a handle;
otherwise sends the `stop` command only if a connection is present, kills
the process if `agent.process` is truthy, sets the status to `stopped`,
publishes `agent_stopped`, and deletes both the handle and the connection
entry. -/
def AgentManager.stopAgent (m : AgentManager) (sid : String) : OpOutcome :=
  match alookup m.agents sid with
  | none =>
      { state := m, sent := [], published := [], killed := false,
        error := some (.agentNotFound sid) }
  | some agent =>
      let sent :=
        match alookup m.connections sid with
        | some _ => [Frame.command "stop"]
        | none => []
      let m1 : AgentManager :=
        { m with agents := aset m.agents sid { agent with status := .stopped } }
      { state :=
          { agents := aerase m1.agents sid,
            connections := aerase m1.connections sid },
        sent := sent, published := ["agent_stopped"],
        killed := agent.hasProcess, error := none }

/-- `AgentManager.sendMessage`: handle and connection must exist; sends the
`message` frame and publishes `message_sent`, leaving the status alone. -/
def AgentManager.sendMessage (m : AgentManager) (sid msg : String) : OpOutcome :=
  match alookup m.agents sid with
  | none =>
      { state := m, sent := [], published := [], killed := false,
        error := some (.agentNotFound sid) }
  | some _ =>
      match alookup m.connections sid with
      | none =>
          { state := m, sent := [], published := [], killed := false,
            error := some (.connectionNotFound sid) }
      | some _ =>
          { state := m, sent := [Frame.message msg],
            published := ["message_sent"], killed := false, error := none }

/-- `AgentManager.takeControl`: handle and connection must exist; sends the
`take_control` command, sets the status to `human_control` and publishes
`control_taken`. -/
def AgentManager.takeControl (m : AgentManager) (sid : String) : OpOutcome :=
  match alookup m.agents sid with
  | none =>
      { state := m, sent := [], published := [], killed := false,
        error := some (.agentNotFound sid) }
  | some agent =>
      match alookup m.connections sid with
      | none =>
          { state := m, sent := [], published := [], killed := false,
            error := some (.connectionNotFound sid) }
      | some _ =>
          { state :=
              { m with
                  agents := aset m.agents sid { agent with status := .human_control } },
            sent := [Frame.command "take_control"],
            published := ["control_taken"], killed := false, error := none }

/-- `AgentManager.releaseControl`: handle and connection must exist; sends
the `release_control` command, sets the status to `running` and publishes
`control_released`. -/
def AgentManager.releaseControl (m : AgentManager) (sid : String) : OpOutcome :=
  match alookup m.agents sid with
  | none =>
      { state := m, sent := [], published := [], killed := false,
        error := some (.agentNotFound sid) }
  | some agent =>
      match alookup m.connections sid with
      | none =>
          { state := m, sent := [], published := [], killed := false,
            error := some (.connectionNotFound sid) }
      | some _ =>
          { state :=
              { m with
                  agents := aset m.agents sid { agent with status := .running } },
            sent := [Frame.command "release_control"],
            published := ["control_released"], killed := false, error := none }

/-- How a tool-execution promise can settle: resolved with the frame's
`result`, rejected with the frame's `error`, or rejected by the 30 s
timeout. -/
inductive ToolOutcome
  | resolvedWith (result : Option String)
  | rejectedWith (msg : String)
  | timedOutErr
deriving DecidableEq, Repr

/-- The state of one outstanding tool-execution correlation: which session
and execution id it belongs to, the identity of its `handleToolResult`
closure and the subscription id it was registered under, whether its
timeout is still armed, and how (if at all) the promise has settled. -/
structure ToolCorr where
  sessionId : String
  execId : String
  cbId : Nat
  subId : Nat
  timeoutActive : Bool
  settled : Option ToolOutcome
deriving DecidableEq, Repr

/-- The `handleToolResult` closure of `executeHumanTool`: on a frame of
type `tool_execution_result` carrying this correlation's execution id it
removes its own subscription from the bus, clears the timeout, and
resolves with `event.result` or rejects with `event.error`; any other
frame is ignored.  A promise settles at most once, so an already-settled
correlation keeps its first outcome. -/
def handleToolResult (bus : EventBus) (c : ToolCorr) (e : Event) :
    EventBus × ToolCorr :=
  if e.type = "tool_execution_result" ∧ e.executionId = some c.execId then
    let r := bus.unsubscribeFromEvent c.sessionId "tool_execution_result" c.cbId
    (r.2,
     { c with
         timeoutActive := false,
         settled :=
           match c.settled with
           | some o => some o
           | none =>
               match e.error with
               | some msg => some (.rejectedWith msg)
               | none => some (.resolvedWith e.result) })
  else (bus, c)

/-- Delivery of one inbound worker frame to an outstanding correlation:
the frame is published on the bus under the correlation's session id, so
`handleToolResult` runs exactly when its callback identity is among the
invoked callbacks of that publish. -/
def deliverFrame (s : EventBus × ToolCorr) (e : Event) : EventBus × ToolCorr :=
  if s.2.cbId ∈ s.1.publishCallbacks s.2.sessionId e then
    handleToolResult s.1 s.2 e
  else s

/-- The 30 s timeout of `executeHumanTool` firing: it only rejects the
promise (first-settle wins); the source's timeout callback does not touch
the bus, so the subscription field of the pair is returned unchanged. -/
def fireTimeout (s : EventBus × ToolCorr) : EventBus × ToolCorr :=
  if s.2.timeoutActive then
    (s.1,
     { s.2 with
         timeoutActive := false,
         settled :=
           match s.2.settled with
           | some o => some o
           | none => some .timedOutErr })
  else s

/-- Outcome of the synchronous part of `executeHumanTool`: the manager and
bus after the call, the frames sent, the recorded correlation (when the
call got as far as subscribing), and the thrown error if any. -/
structure ToolStartOutcome where
  mgr : AgentManager
  bus : EventBus
  sent : List Frame
  corr : Option ToolCorr
  error : Option JsError
deriving DecidableEq, Repr

/-- `AgentManager.executeHumanTool`: handle must exist and be in
`human_control`, the connection must exist; then the `tool_execution`
frame carrying a generated execution id is sent and `handleToolResult` is
subscribed (event-type-scoped) for `tool_execution_result`.  The
generated execution id and the closure identity are parameters. -/
def AgentManager.executeHumanTool (m : AgentManager) (bus : EventBus)
    (sid toolName execId : String) (cbId : Nat) : ToolStartOutcome :=
  match alookup m.agents sid with
  | none =>
      { mgr := m, bus := bus, sent := [], corr := none,
        error := some (.agentNotFound sid) }
  | some agent =>
      if agent.status ≠ AgentStatus.human_control then
        { mgr := m, bus := bus, sent := [], corr := none,
          error := some (.notHumanControl agent.status) }
      else
        match alookup m.connections sid with
        | none =>
            { mgr := m, bus := bus, sent := [], corr := none,
              error := some (.connectionNotFound sid) }
        | some _ =>
            let sub := bus.subscribeToEvent sid "tool_execution_result" cbId
            { mgr := m, bus := sub.2,
              sent := [Frame.tool_execution execId toolName],
              corr := some
                { sessionId := sid, execId := execId, cbId := cbId,
                  subId := sub.1, timeoutActive := true, settled := none },
              error := none }

/-- The `data` payload of a client frame, reduced to the fields the bridge
itself reads: the sub-discriminators of the namespaced events, the
`reason` of `connection_failed`, and the `received_at` of `pong`. -/
structure WSData where
  event_type : Option String := none
  tool_name : Option String := none
  visualization_type : Option String := none
  reason : Option String := none
  received_at : Option Nat := none
deriving DecidableEq, Repr

/-- An outbound client frame as handed to `sendMessage(type, data)`. -/
structure OutMessage where
  type : String
  data : WSData
deriving DecidableEq, Repr

/-- An inbound client frame after `JSON.parse`: its `type` and `data`. -/
structure ClientMessage where
  type : String
  data : WSData
deriving DecidableEq, Repr

/-- The `WebSocketService` client-bridge state: connection flag, reconnect
counter with its fixed ceiling and base delay, and the per-event-type
handler registry `eventHandlers` (event type → ordered list of
`(subscription id, callback)`); `nextId` models the generated ids. -/
structure WebSocketService where
  isConnected : Bool
  reconnectAttempts : Nat
  maxReconnectAttempts : Nat
  reconnectDelay : Nat
  eventHandlers : List (String × List (Nat × Nat))
  nextId : Nat
deriving DecidableEq, Repr

/-- The state built by the `WebSocketService` constructor. -/
def WebSocketService.init : WebSocketService :=
  { isConnected := false, reconnectAttempts := 0, maxReconnectAttempts := 5,
    reconnectDelay := 1000, eventHandlers := [], nextId := 0 }

/-- `WebSocketService.subscribe(eventType, callback)`: get-or-create the
per-type list and push `{id, callback}` with a fresh id. -/
def WebSocketService.subscribe (ws : WebSocketService) (eventType : String)
    (cb : Nat) : Nat × WebSocketService :=
  let handlers := (alookup ws.eventHandlers eventType).getD []
  let subId := ws.nextId
  (subId,
   { ws with
       eventHandlers :=
         aset ws.eventHandlers eventType (handlers ++ [(subId, cb)]),
       nextId := ws.nextId + 1 })

/-- `WebSocketService.unsubscribe(eventType, subscriptionId)`: `false` when
the type has no list; otherwise filter out the entry with that id and
report whether the list actually shrank. -/
def WebSocketService.unsubscribe (ws : WebSocketService) (eventType : String)
    (subId : Nat) : Bool × WebSocketService :=
  match alookup ws.eventHandlers eventType with
  | none => (false, ws)
  | some handlers =>
      let filtered := handlers.filter (fun h => h.1 ≠ subId)
      (decide (filtered.length < handlers.length),
       { ws with eventHandlers := aset ws.eventHandlers eventType filtered })

/-- `WebSocketService._emitEvent(eventType, data)`: invoke every handler
registered for the type, each wrapped in `try`/`catch` with the caught
error logged, so the result is the full invocation log and never an
exception; no registry entry means no invocations. -/
def WebSocketService.emitEvent (ws : WebSocketService)
    (run : Nat → WSData → Option String) (eventType : String) (d : WSData) :
    List (Nat × Option String) :=
  match alookup ws.eventHandlers eventType with
  | none => []
  | some handlers => handlers.map (fun h => (h.2, run h.2 d))

/-- Registry view: the callbacks registered for one event type. -/
def WebSocketService.handlerCallbacks (ws : WebSocketService)
    (eventType : String) : List Nat :=
  ((alookup ws.eventHandlers eventType).getD []).map Prod.snd

/-- `WebSocketService._handleMessage(messageData)` after a successful
parse: first `_emitEvent(type, data)` for every frame, then the
type-specific switch — `ping` answers with `pong` carrying the receipt
timestamp via `sendMessage` (which only sends while connected), and the
three namespaced types re-emit under their derived keys with the
documented placeholder defaults.  Returns the invocation log and the
outbound frames. -/
def WebSocketService.handleMessage (ws : WebSocketService)
    (run : Nat → WSData → Option String) (msg : ClientMessage) (now : Nat) :
    List (Nat × Option String) × List OutMessage :=
  let inv := ws.emitEvent run msg.type msg.data
  match msg.type with
  | "ping" =>
      (inv,
       if ws.isConnected then
         [{ type := "pong", data := { received_at := some now } }]
       else [])
  | "agent_event" =>
      (inv ++ ws.emitEvent run ("agent:" ++ msg.data.event_type.getD "event")
          msg.data, [])
  | "tool_event" =>
      (inv ++ ws.emitEvent run
          ("tool:" ++ msg.data.tool_name.getD "unknown" ++ ":"
            ++ msg.data.event_type.getD "event") msg.data, [])
  | "visualization_event" =>
      (inv ++ ws.emitEvent run
          ("visualization:" ++ msg.data.visualization_type.getD "event")
          msg.data, [])
  | _ => (inv, [])

/-- Outcome of one `_attemptReconnect` call (run on every socket close):
the bridge state after it, the delay of the single scheduled reconnect
attempt if one was scheduled, and the invocation log of the
`connection_failed` emission when the ceiling was reached. -/
structure ReconnectOutcome where
  ws : WebSocketService
  scheduledDelay : Option Nat
  emitted : List (Nat × Option String)
deriving DecidableEq, Repr

/-- `WebSocketService._attemptReconnect`: at the ceiling, emit
`connection_failed` and schedule nothing (the counter is not touched);
below it, increment the counter and schedule one attempt after
`reconnectDelay * 2 ^ (attempts - 1)` ms (attempts counted after the
increment, as in the source). -/
def WebSocketService.attemptReconnect (ws : WebSocketService)
    (run : Nat → WSData → Option String) : ReconnectOutcome :=
  if ws.reconnectAttempts ≥ ws.maxReconnectAttempts then
    { ws := ws, scheduledDelay := none,
      emitted :=
        ws.emitEvent run "connection_failed"
          { reason := some "Maximum reconnection attempts reached" } }
  else
    { ws := { ws with reconnectAttempts := ws.reconnectAttempts + 1 },
      scheduledDelay :=
        some (ws.reconnectDelay * 2 ^ (ws.reconnectAttempts + 1 - 1)),
      emitted := [] }

/-- The delays scheduled by `n` consecutive closes, stopping at the first
close that schedules nothing. -/
def WebSocketService.closeDelays (ws : WebSocketService)
    (run : Nat → WSData → Option String) : Nat → List Nat
  | 0 => []
  | n + 1 =>
      let o := ws.attemptReconnect run
      match o.scheduledDelay with
      | some d => d :: WebSocketService.closeDelays o.ws run n
      | none => []

/-- A manager with one session `S1` under human control and a live worker
connection — the state in which `executeHumanTool` proceeds. -/
def mgrHuman : AgentManager :=
  { agents := [("S1", { status := .human_control, hasProcess := true })],
    connections := [("S1", ())] }

/-- The synchronous part of one `executeHumanTool` call on `mgrHuman`,
with execution id `T1` and handler identity `0`, on an empty bus. -/
def c5Out : ToolStartOutcome :=
  mgrHuman.executeHumanTool EventBus.empty "S1" "browser" "T1" 0

/-- The correlation recorded by `c5Out` (it succeeds, so `corr` is set). -/
def c5Corr : ToolCorr :=
  (c5Out.corr).getD
    { sessionId := "", execId := "", cbId := 0, subId := 0,
      timeoutActive := false, settled := none }

/-- `c5Out`'s correlation after its 30 s deadline fires with no matching
frame having arrived. -/
def c5After : EventBus × ToolCorr := fireTimeout (c5Out.bus, c5Corr)

/-- A connected bridge with one subscriber (callback identity `7`,
subscription id `0`) registered for the literal event type `ping`. -/
def wsPing : WebSocketService :=
  { isConnected := true, reconnectAttempts := 0, maxReconnectAttempts := 5,
    reconnectDelay := 1000, eventHandlers := [("ping", [(0, 7)])],
    nextId := 1 }

/-- The bus-and-correlation pair right after a successful
`executeHumanTool` call on `bus` that generated execution id `execId` and
registered the handler with identity `cbId`: the handler is subscribed
(event-type-scoped) for `tool_execution_result`, the timeout is armed, and
the promise is unsettled. -/
def toolStartState (bus : EventBus) (sid execId : String) (cbId : Nat) :
    EventBus × ToolCorr :=
  ((bus.subscribeToEvent sid "tool_execution_result" cbId).2,
   { sessionId := sid, execId := execId, cbId := cbId, subId := bus.nextId,
     timeoutActive := true, settled := none })

/-- A manager whose session `S1` is `running` (so not in human control)
with a live worker connection. -/
def mgrRunning : AgentManager :=
  { agents := [("S1", { status := .running, hasProcess := true })],
    connections := [("S1", ())] }

/-- A manager whose session `S1` has a handle (status `ready`, live
process) but whose worker socket has already closed, so the connections
map has no entry. -/
def mgrNoConn : AgentManager :=
  { agents := [("S1", { status := .ready, hasProcess := true })],
    connections := [] }

/-! ### Association-list lemmas -/

theorem alookup_aset_self {α β : Type} [DecidableEq α]
    (l : List (α × β)) (k : α) (v : β) :
    alookup (aset l k v) k = some v := by
  induction l with
  | nil => simp [aset, alookup]
  | cons p rest ih =>
      obtain ⟨a, b⟩ := p
      by_cases h : a = k
      · simp [aset, alookup, h]
      · simp [aset, alookup, h, ih]

theorem alookup_aset_ne {α β : Type} [DecidableEq α]
    (l : List (α × β)) (k k' : α) (v : β) (h : k' ≠ k) :
    alookup (aset l k v) k' = alookup l k' := by
  induction l with
  | nil => simp [aset, alookup, Ne.symm h]
  | cons p rest ih =>
      obtain ⟨a, b⟩ := p
      by_cases ha : a = k
      · subst ha
        simp [aset, alookup, Ne.symm h]
      · simp only [aset, if_neg ha]
        by_cases ha' : a = k'
        · simp [alookup, ha']
        · simp [alookup, ha', ih]

theorem aset_of_lookup_some {α β : Type} [DecidableEq α]
    (l : List (α × β)) (k : α) (v : β) (h : alookup l k = some v) :
    aset l k v = l := by
  induction l with
  | nil => simp [alookup] at h
  | cons p rest ih =>
      obtain ⟨a, b⟩ := p
      by_cases ha : a = k
      · simp only [alookup, if_pos ha] at h
        obtain rfl : b = v := by injection h
        simp [aset, ha]
      · simp only [alookup, if_neg ha] at h
        simp [aset, ha, ih h]

theorem alookup_eq_none_iff {α β : Type} [DecidableEq α]
    (l : List (α × β)) (k : α) :
    alookup l k = none ↔ k ∉ l.map Prod.fst := by
  induction l with
  | nil => simp [alookup]
  | cons p rest ih =>
      obtain ⟨a, b⟩ := p
      by_cases ha : a = k
      · simp [alookup, ha]
      · simp [alookup, ha, ih, Ne.symm ha]

theorem aset_of_lookup_none {α β : Type} [DecidableEq α]
    (l : List (α × β)) (k : α) (v : β) (h : alookup l k = none) :
    aset l k v = l ++ [(k, v)] := by
  induction l with
  | nil => simp [aset]
  | cons p rest ih =>
      obtain ⟨a, b⟩ := p
      by_cases ha : a = k
      · simp [alookup, ha] at h
      · simp only [alookup, if_neg ha] at h
        simp [aset, ha, ih h]

theorem aerase_of_lookup_none {α β : Type} [DecidableEq α]
    (l : List (α × β)) (k : α) (h : alookup l k = none) :
    aerase l k = l := by
  induction l with
  | nil => simp [aerase]
  | cons p rest ih =>
      obtain ⟨a, b⟩ := p
      by_cases ha : a = k
      · simp [alookup, ha] at h
      · simp only [alookup, if_neg ha] at h
        simp [aerase, ha, ih h]

theorem alookup_append {α β : Type} [DecidableEq α]
    (l₁ l₂ : List (α × β)) (k : α) :
    alookup (l₁ ++ l₂) k =
      match alookup l₁ k with
      | some v => some v
      | none => alookup l₂ k := by
  induction l₁ with
  | nil => simp [alookup]
  | cons p rest ih =>
      obtain ⟨a, b⟩ := p
      by_cases ha : a = k
      · simp [alookup, ha]
      · simp [alookup, ha, ih]

theorem aerase_append_of_not_mem {α β : Type} [DecidableEq α]
    (l₁ l₂ : List (α × β)) (k : α) (h : k ∉ l₁.map Prod.fst) :
    aerase (l₁ ++ l₂) k = l₁ ++ aerase l₂ k := by
  induction l₁ with
  | nil => simp
  | cons p rest ih =>
      obtain ⟨a, b⟩ := p
      simp only [List.map_cons, List.mem_cons] at h
      push_neg at h
      simp [aerase, Ne.symm h.1, ih h.2]

theorem keys_aerase_sublist {α β : Type} [DecidableEq α]
    (l : List (α × β)) (k : α) :
    ((aerase l k).map Prod.fst).Sublist (l.map Prod.fst) := by
  induction l with
  | nil => simp [aerase]
  | cons p rest ih =>
      obtain ⟨a, b⟩ := p
      by_cases ha : a = k
      · simp only [aerase, if_pos ha, List.map_cons]
        exact (List.Sublist.refl _).cons _
      · simpa [aerase, ha] using ih.cons₂ a

theorem alookup_aerase_self_of_nodup {α β : Type} [DecidableEq α]
    (l : List (α × β)) (k : α) (h : (l.map Prod.fst).Nodup) :
    alookup (aerase l k) k = none := by
  induction l with
  | nil => simp [aerase, alookup]
  | cons p rest ih =>
      obtain ⟨a, b⟩ := p
      simp only [List.map_cons, List.nodup_cons] at h
      by_cases ha : a = k
      · subst ha
        simp only [aerase, if_pos rfl]
        exact (alookup_eq_none_iff rest a).2 h.1
      · simp [aerase, alookup, ha, ih h.2]

theorem keys_aset_of_lookup_some {α β : Type} [DecidableEq α]
    (l : List (α × β)) (k : α) (v w : β) (h : alookup l k = some w) :
    (aset l k v).map Prod.fst = l.map Prod.fst := by
  induction l with
  | nil => simp [alookup] at h
  | cons p rest ih =>
      obtain ⟨a, b⟩ := p
      by_cases ha : a = k
      · simp [aset, ha]
      · simp only [alookup, if_neg ha] at h
        simp [aset, ha, ih h]

theorem nodup_keys_aset {α β : Type} [DecidableEq α]
    (l : List (α × β)) (k : α) (v : β) (h : (l.map Prod.fst).Nodup) :
    ((aset l k v).map Prod.fst).Nodup := by
  cases hl : alookup l k with
  | some w => rw [keys_aset_of_lookup_some l k v w hl]; exact h
  | none =>
      rw [aset_of_lookup_none l k v hl]
      have hk : k ∉ l.map Prod.fst := (alookup_eq_none_iff l k).1 hl
      simp only [List.map_append, List.map_cons, List.map_nil]
      refine List.Nodup.append h (List.nodup_singleton k) ?_
      intro a ha hb
      rw [List.mem_singleton] at hb
      subst hb
      exact hk ha

theorem nodup_keys_aerase {α β : Type} [DecidableEq α]
    (l : List (α × β)) (k : α) (h : (l.map Prod.fst).Nodup) :
    ((aerase l k).map Prod.fst).Nodup :=
  (keys_aerase_sublist l k).nodup h

theorem removeByCallback_append_single
    (l : List (Nat × Nat)) (i cb : Nat) (h : cb ∉ l.map Prod.snd) :
    removeByCallback (l ++ [(i, cb)]) cb = some l := by
  induction l with
  | nil => simp [removeByCallback]
  | cons p rest ih =>
      obtain ⟨a, b⟩ := p
      simp only [List.map_cons, List.mem_cons] at h
      push_neg at h
      simp [removeByCallback, Ne.symm h.1, ih h.2]

/-! ### EventBus registry lemmas -/

theorem publish_map_fst (bus : EventBus) (run : Nat → Event → Option String)
    (sid : String) (e : Event) :
    (bus.publish run sid e).map Prod.fst =
      bus.sessionCallbacks sid ++ bus.typedCallbacks sid e.type := by
  unfold EventBus.publish EventBus.sessionCallbacks EventBus.typedCallbacks
    EventBus.typedSubs
  cases h1 : alookup bus.subscribers sid with
  | none =>
      cases h2 : alookup bus.eventSubscribers e.type with
      | none => simp [h1, h2, alookup]
      | some evSubs =>
          cases h3 : alookup evSubs sid with
          | none => simp [h1, h2, h3]
          | some sessSubs => simp [h1, h2, h3, List.map_map, Function.comp]
  | some subs =>
      cases h2 : alookup bus.eventSubscribers e.type with
      | none => simp [h1, h2, alookup, List.map_map, Function.comp]
      | some evSubs =>
          cases h3 : alookup evSubs sid with
          | none => simp [h1, h2, h3, List.map_map, Function.comp]
          | some sessSubs =>
              simp only [h1, h2, h3, Option.getD_some, List.map_append,
                List.map_map]
              rfl

theorem publishCallbacks_eq (bus : EventBus) (sid : String) (e : Event) :
    bus.publishCallbacks sid e =
      bus.sessionCallbacks sid ++ bus.typedCallbacks sid e.type := by
  unfold EventBus.publishCallbacks
  exact publish_map_fst bus _ sid e

theorem sessionCallbacks_subscribeToEvent (bus : EventBus) (sid t : String)
    (cb : Nat) (s : String) :
    ((bus.subscribeToEvent sid t cb).2).sessionCallbacks s =
      bus.sessionCallbacks s := rfl

theorem typedSubs_subscribeToEvent_self (bus : EventBus) (sid t : String)
    (cb : Nat) (h : bus.nextId ∉ (bus.typedSubs sid t).map Prod.fst) :
    ((bus.subscribeToEvent sid t cb).2).typedSubs sid t =
      bus.typedSubs sid t ++ [(bus.nextId, cb)] := by
  have h' : alookup (bus.typedSubs sid t) bus.nextId = none :=
    (alookup_eq_none_iff _ _).2 h
  simp only [EventBus.typedSubs] at h' ⊢
  simp only [EventBus.subscribeToEvent, alookup_aset_self, Option.getD_some]
  exact aset_of_lookup_none _ _ _ h'

theorem unsub_after_sub (bus : EventBus) (sid t : String) (cb : Nat)
    (hsub : bus.nextId ∉ (bus.typedSubs sid t).map Prod.fst)
    (hcb : cb ∉ bus.typedCallbacks sid t) :
    (((bus.subscribeToEvent sid t cb).2).unsubscribeFromEvent sid t cb).1 = true ∧
    ((((bus.subscribeToEvent sid t cb).2).unsubscribeFromEvent sid t cb).2).typedSubs
        sid t = bus.typedSubs sid t ∧
    ∀ s : String,
      ((((bus.subscribeToEvent sid t cb).2).unsubscribeFromEvent sid t cb).2).sessionCallbacks
          s = bus.sessionCallbacks s := by
  have hY : aset (bus.typedSubs sid t) bus.nextId cb =
      bus.typedSubs sid t ++ [(bus.nextId, cb)] :=
    aset_of_lookup_none _ _ _ ((alookup_eq_none_iff _ _).2 hsub)
  have hrm : removeByCallback (bus.typedSubs sid t ++ [(bus.nextId, cb)]) cb =
      some (bus.typedSubs sid t) :=
    removeByCallback_append_single _ _ _
      (by simpa [EventBus.typedCallbacks] using hcb)
  simp only [EventBus.typedSubs] at hY hrm
  refine ⟨?_, ?_, ?_⟩ <;>
    simp [EventBus.subscribeToEvent, EventBus.unsubscribeFromEvent,
      EventBus.typedSubs, EventBus.sessionCallbacks, hY, hrm,
      alookup_aset_self]

theorem filter_ne_of_not_mem (l : List (Nat × Nat)) (subId : Nat)
    (h : subId ∉ l.map Prod.fst) :
    l.filter (fun p => p.1 ≠ subId) = l := by
  induction l with
  | nil => rfl
  | cons p rest ih =>
      obtain ⟨a, b⟩ := p
      simp only [List.map_cons, List.mem_cons] at h
      push_neg at h
      rw [List.filter_cons, if_pos (by simp [Ne.symm h.1]), ih h.2]

theorem map_pair_of_snd {γ : Type} (f : Nat → γ) (l : List (Nat × Nat)) :
    l.map (fun p => (p.2, f p.2)) = (l.map Prod.snd).map (fun c => (c, f c)) := by
  simp only [List.map_map]
  rfl

theorem publish_eq_callbacks_map (bus : EventBus)
    (run : Nat → Event → Option String) (sid : String) (e : Event) :
    bus.publish run sid e =
      (bus.sessionCallbacks sid ++ bus.typedCallbacks sid e.type).map
        (fun c => (c, run c e)) := by
  unfold EventBus.publish EventBus.sessionCallbacks EventBus.typedCallbacks
    EventBus.typedSubs
  cases h1 : alookup bus.subscribers sid with
  | none =>
      cases h2 : alookup bus.eventSubscribers e.type with
      | none => simp [h1, h2, alookup]
      | some evSubs =>
          cases h3 : alookup evSubs sid with
          | none => simp [h1, h2, h3]
          | some sessSubs =>
              simp [h1, h2, h3, map_pair_of_snd]
  | some subs =>
      cases h2 : alookup bus.eventSubscribers e.type with
      | none => simp [h1, h2, alookup, map_pair_of_snd]
      | some evSubs =>
          cases h3 : alookup evSubs sid with
          | none => simp [h1, h2, h3, map_pair_of_snd]
          | some sessSubs =>
              simp only [h1, h2, h3, Option.getD_some, List.map_append,
                List.map_map]
              rfl

/-! ### Claim theorems -/

/-- Claim C2: `EventBus.publish` for session `S` and event `E` invokes
exactly the session-wide subscribers of `S` followed by the event-type
subscribers of `(S, E.type)` — each registered subscription exactly once
(every callback's invocation count equals its registration count in those
two registries, so a callback registered only for a different session or
a different event type has invocation count zero). -/
theorem C2_publish_fanout (bus : EventBus) (run : Nat → Event → Option String)
    (sid : String) (e : Event) :
    (bus.publish run sid e).map Prod.fst =
      bus.sessionCallbacks sid ++ bus.typedCallbacks sid e.type ∧
    ∀ c : Nat,
      ((bus.publish run sid e).map Prod.fst).count c =
        (bus.sessionCallbacks sid).count c +
          (bus.typedCallbacks sid e.type).count c := by
  refine ⟨publish_map_fst bus run sid e, fun c => ?_⟩
  rw [publish_map_fst bus run sid e, List.count_append]

/-- Claim C7: a subscriber callback that throws is caught (its error is
recorded in the invocation log, never propagated to the publisher, which
always returns a plain log) and every registered subscriber is still
invoked: both `EventBus.publish` and the client bridge's `_emitEvent`
produce the invocation of every registered callback with its own outcome,
independently of which callbacks throw. -/
theorem C7_subscriber_throw_isolated (bus : EventBus)
    (run : Nat → Event → Option String) (sid : String) (e : Event)
    (ws : WebSocketService) (wrun : Nat → WSData → Option String)
    (t : String) (d : WSData) :
    bus.publish run sid e =
      (bus.publishCallbacks sid e).map (fun c => (c, run c e)) ∧
    ws.emitEvent wrun t d =
      (ws.handlerCallbacks t).map (fun c => (c, wrun c d)) := by
  constructor
  · rw [publishCallbacks_eq, publish_eq_callbacks_map]
  · unfold WebSocketService.emitEvent WebSocketService.handlerCallbacks
    cases h : alookup ws.eventHandlers t with
    | none => simp [h]
    | some handlers => simp [h, map_pair_of_snd]

/-- Claim C6: each close below the ceiling increments the reconnect
counter from `n` to `n + 1` and schedules exactly one attempt after
`1000 * 2 ^ n` ms (that is `base * 2 ^ (attempts - 1)` for the new
counter value), with no `connection_failed` emission; at the ceiling of 5
the close schedules nothing, leaves the counter alone, and emits
`connection_failed` to its subscribers; starting from the constructor
state, six consecutive closes schedule exactly the delays
`1000, 2000, 4000, 8000, 16000`. -/
theorem C6_reconnect_backoff (ws : WebSocketService)
    (run : Nat → WSData → Option String)
    (hmax : ws.maxReconnectAttempts = 5) (hdelay : ws.reconnectDelay = 1000) :
    (∀ n : Nat, ws.reconnectAttempts = n → n < 5 →
      (ws.attemptReconnect run).scheduledDelay = some (1000 * 2 ^ n) ∧
      ((ws.attemptReconnect run).ws).reconnectAttempts = n + 1 ∧
      (ws.attemptReconnect run).emitted = []) ∧
    (ws.reconnectAttempts = 5 →
      (ws.attemptReconnect run).scheduledDelay = none ∧
      (ws.attemptReconnect run).ws = ws ∧
      (ws.attemptReconnect run).emitted =
        ws.emitEvent run "connection_failed"
          { reason := some "Maximum reconnection attempts reached" }) ∧
    WebSocketService.init.closeDelays run 6 = [1000, 2000, 4000, 8000, 16000] := by
  refine ⟨fun n hn hlt => ?_, fun h5 => ?_, ?_⟩
  · have hge : ¬ (5 ≤ n) := by omega
    simp [WebSocketService.attemptReconnect, hn, hmax, hdelay, hge]
  · have hge : ws.reconnectAttempts ≥ ws.maxReconnectAttempts := by
      rw [h5, hmax]
    simp [WebSocketService.attemptReconnect, hge]
  · rfl

/-- Claim C6 witness: the backoff theorem applied to the constructor
state — the first close schedules a 1000 ms attempt, and six consecutive
closes schedule exactly 1000, 2000, 4000, 8000, 16000 ms. -/
theorem C6_reconnect_backoff_witness :
    (WebSocketService.init.attemptReconnect (fun _ _ => none)).scheduledDelay =
      some 1000 ∧
    WebSocketService.init.closeDelays (fun _ _ => none) 6 =
      [1000, 2000, 4000, 8000, 16000] := by
  have h := C6_reconnect_backoff WebSocketService.init (fun _ _ => none) rfl rfl
  refine ⟨?_, h.2.2⟩
  have h1 := (h.1 0 rfl (by norm_num)).1
  simpa using h1

/-- Claim C9 counterexample: the claim says a `ping` frame is not exposed
to subscribers, but `_handleMessage` emits every frame under its literal
type before the switch — on `wsPing`, whose only subscriber (callback `7`)
is registered for type `ping`, handling a `ping` frame invokes that
subscriber (the invocation log is `[(7, none)]`, not `[]`). -/
theorem C9_ping_exposed_counterexample :
    (wsPing.handleMessage (fun _ _ => none)
        { type := "ping", data := {} } 42).1 = [(7, none)] ∧
    (wsPing.handleMessage (fun _ _ => none)
        { type := "ping", data := {} } 42).1 ≠ [] := by
  exact ⟨rfl, by decide⟩

/-- Claim C9 (amended): an inbound `ping` frame on a connected bridge
triggers an automatic `pong` reply carrying the receipt timestamp, and —
like every frame — the `ping` frame is also emitted to the subscribers
registered for the literal event type `ping` before the switch handles
it. -/
theorem C9_ping_pong (ws : WebSocketService)
    (run : Nat → WSData → Option String) (d : WSData) (now : Nat)
    (hconn : ws.isConnected = true) :
    ws.handleMessage run { type := "ping", data := d } now =
      (ws.emitEvent run "ping" d,
       [{ type := "pong", data := { received_at := some now } }]) := by
  simp [WebSocketService.handleMessage, hconn]

/-- Claim C9 witness: the amended theorem evaluated on `wsPing`. -/
theorem C9_ping_pong_witness :
    wsPing.handleMessage (fun _ _ => none) { type := "ping", data := {} } 5 =
      ([(7, none)], [{ type := "pong", data := { received_at := some 5 } }]) := by
  rw [C9_ping_pong wsPing (fun _ _ => none) {} 5 rfl]
  rfl

/-- Claim C5 (code-bug evidence): when the deadline of the tool execution
started by `c5Out` expires with no matching frame, the caller's promise is
rejected with the timeout error — but the `handleToolResult` subscription
(callback `0`) is still registered for `(S1, tool_execution_result)` on
the bus afterwards: the source's timeout callback only calls `reject` and
never `unsubscribeFromEvent`, so the stale subscription is NOT removed. -/
theorem C5_timeout_leaves_subscription :
    c5Out.error = none ∧
    c5Corr.timeoutActive = true ∧
    c5After.2.settled = some ToolOutcome.timedOutErr ∧
    c5After.1.typedCallbacks "S1" "tool_execution_result" = [0] := by
  exact ⟨rfl, rfl, rfl, rfl⟩

/-- Claim C4: an operation invoked from a precondition-violating state
reports an invalid-state error carrying the actual state (whose message
names the expected condition and the actual status), sends no worker
frame, and returns the orchestrator state unchanged: `executeHumanTool`
with a status other than `human_control`, and `startAgent` with a status
neither `ready` nor `stopped`. -/
theorem C4_invalid_state_noop
    (m : AgentManager) (bus : EventBus) (sid toolName execId : String)
    (cbId : Nat) (agent : AgentHandle)
    (hag : alookup m.agents sid = some agent) :
    (agent.status ≠ AgentStatus.human_control →
      m.executeHumanTool bus sid toolName execId cbId =
        { mgr := m, bus := bus, sent := [], corr := none,
          error := some (.notHumanControl agent.status) }) ∧
    (agent.status ≠ AgentStatus.ready → agent.status ≠ AgentStatus.stopped →
      m.startAgent sid =
        { state := m, sent := [], published := [], killed := false,
          error := some (.agentNotReadyToStart agent.status) }) ∧
    (∀ st : AgentStatus,
      JsError.message (.notHumanControl st) =
        "Agent must be in human control to execute tools (status: "
          ++ st.str ++ ")") ∧
    (∀ st : AgentStatus,
      JsError.message (.agentNotReadyToStart st) =
        "Agent is not ready to start (status: " ++ st.str ++ ")") := by
  refine ⟨fun hst => ?_, fun h1 h2 => ?_, fun _ => rfl, fun _ => rfl⟩
  · simp [AgentManager.executeHumanTool, hag, hst]
  · simp [AgentManager.startAgent, hag, h1, h2]

/-- Claim C4 witness: on `mgrRunning` (status `running`), both
`executeHumanTool` and `startAgent` fail with the invalid-state error and
leave the manager unchanged. -/
theorem C4_invalid_state_noop_witness :
    mgrRunning.executeHumanTool EventBus.empty "S1" "browser" "T1" 0 =
      { mgr := mgrRunning, bus := EventBus.empty, sent := [], corr := none,
        error := some (.notHumanControl AgentStatus.running) } ∧
    mgrRunning.startAgent "S1" =
      { state := mgrRunning, sent := [], published := [], killed := false,
        error := some (.agentNotReadyToStart AgentStatus.running) } := by
  have h := C4_invalid_state_noop mgrRunning EventBus.empty "S1" "browser" "T1"
    0 { status := .running, hasProcess := true } rfl
  exact ⟨h.1 (by decide), h.2.1 (by decide) (by decide)⟩

/-- Claim C10: with a handle present but no connection entry, `stopAgent`
still completes without error — it sends no `stop` command, kills the
process, publishes `agent_stopped`, and leaves neither a handle nor a
connection entry — whereas `startAgent` (from a startable status),
`sendMessage`, `takeControl` and `releaseControl` all fail with the
connection-not-found error and leave the state unchanged. -/
theorem C10_stop_without_connection
    (m : AgentManager) (sid msg : String) (agent : AgentHandle)
    (hag : alookup m.agents sid = some agent)
    (hconn : alookup m.connections sid = none)
    (hproc : agent.hasProcess = true)
    (hnd : (m.agents.map Prod.fst).Nodup) :
    (m.stopAgent sid).error = none ∧
    (m.stopAgent sid).sent = [] ∧
    (m.stopAgent sid).killed = true ∧
    (m.stopAgent sid).published = ["agent_stopped"] ∧
    alookup (m.stopAgent sid).state.agents sid = none ∧
    alookup (m.stopAgent sid).state.connections sid = none ∧
    ((agent.status = AgentStatus.ready ∨ agent.status = AgentStatus.stopped) →
      m.startAgent sid =
        { state := m, sent := [], published := [], killed := false,
          error := some (.connectionNotFound sid) }) ∧
    m.sendMessage sid msg =
      { state := m, sent := [], published := [], killed := false,
        error := some (.connectionNotFound sid) } ∧
    m.takeControl sid =
      { state := m, sent := [], published := [], killed := false,
        error := some (.connectionNotFound sid) } ∧
    m.releaseControl sid =
      { state := m, sent := [], published := [], killed := false,
        error := some (.connectionNotFound sid) } := by
  refine ⟨?_, ?_, ?_, ?_, ?_, ?_, fun hst => ?_, ?_, ?_, ?_⟩
  · simp [AgentManager.stopAgent, hag, hconn]
  · simp [AgentManager.stopAgent, hag, hconn]
  · simp [AgentManager.stopAgent, hag, hconn, hproc]
  · simp [AgentManager.stopAgent, hag, hconn]
  · simp only [AgentManager.stopAgent, hag, hconn]
    exact alookup_aerase_self_of_nodup _ _ (nodup_keys_aset _ _ _ hnd)
  · simp only [AgentManager.stopAgent, hag, hconn]
    rw [aerase_of_lookup_none _ _ hconn]
    exact hconn
  · rcases hst with hst | hst <;> simp [AgentManager.startAgent, hag, hconn, hst]
  · simp [AgentManager.sendMessage, hag, hconn]
  · simp [AgentManager.takeControl, hag, hconn]
  · simp [AgentManager.releaseControl, hag, hconn]

/-- Claim C10 witness: the theorem evaluated on `mgrNoConn` (handle for
`S1`, empty connections map). -/
theorem C10_stop_without_connection_witness :
    (mgrNoConn.stopAgent "S1").error = none ∧
    (mgrNoConn.stopAgent "S1").sent = [] ∧
    alookup (mgrNoConn.stopAgent "S1").state.agents "S1" = none ∧
    mgrNoConn.startAgent "S1" =
      { state := mgrNoConn, sent := [], published := [], killed := false,
        error := some (.connectionNotFound "S1") } := by
  have h := C10_stop_without_connection mgrNoConn "S1" "hi"
    { status := .ready, hasProcess := true } rfl rfl rfl (by decide)
  exact ⟨h.1, h.2.1, h.2.2.2.2.1, h.2.2.2.2.2.2.1 (Or.inl rfl)⟩

/-- Claim C3: the agents map holds at most one handle per session (its key
list stays duplicate-free under `createAgent` and `stopAgent`); a second
`createAgent` for an existing session id fails with the already-exists
error and changes no state; after `stopAgent` completes, no handle and no
connection entry remain, and a subsequent `startAgent` without a new
`createAgent` fails with the not-found error, changing nothing. -/
theorem C3_handle_uniqueness
    (m : AgentManager) (sid : String) (agent : AgentHandle)
    (hnd : (m.agents.map Prod.fst).Nodup)
    (hndc : (m.connections.map Prod.fst).Nodup) :
    ((alookup m.agents sid).isSome →
      m.createAgent sid =
        { state := m, sent := [], published := [], killed := false,
          error := some (.agentAlreadyExists sid) }) ∧
    (((m.createAgent sid).state.agents.map Prod.fst).Nodup ∧
     ((m.stopAgent sid).state.agents.map Prod.fst).Nodup) ∧
    (alookup m.agents sid = some agent →
      ((m.stopAgent sid).error = none ∧
       alookup (m.stopAgent sid).state.agents sid = none ∧
       alookup (m.stopAgent sid).state.connections sid = none ∧
       (m.stopAgent sid).state.startAgent sid =
         { state := (m.stopAgent sid).state, sent := [], published := [],
           killed := false, error := some (.agentNotFound sid) })) := by
  refine ⟨fun h => ?_, ⟨?_, ?_⟩, fun hag => ?_⟩
  · simp [AgentManager.createAgent, h]
  · by_cases h : (alookup m.agents sid).isSome
    · simp only [AgentManager.createAgent, if_pos h]
      exact hnd
    · simp only [AgentManager.createAgent, if_neg h]
      exact nodup_keys_aset _ _ _ (nodup_keys_aset _ _ _ hnd)
  · cases h : alookup m.agents sid with
    | none => simp only [AgentManager.stopAgent, h]; exact hnd
    | some a =>
        simp only [AgentManager.stopAgent, h]
        exact nodup_keys_aerase _ _ (nodup_keys_aset _ _ _ hnd)
  · have hga : alookup (m.stopAgent sid).state.agents sid = none := by
      simp only [AgentManager.stopAgent, hag]
      exact alookup_aerase_self_of_nodup _ _ (nodup_keys_aset _ _ _ hnd)
    refine ⟨?_, hga, ?_, ?_⟩
    · simp [AgentManager.stopAgent, hag]
    · simp only [AgentManager.stopAgent, hag]
      exact alookup_aerase_self_of_nodup _ _ hndc
    · simp [AgentManager.startAgent, hga]

/-- Claim C3 witness: on `mgrHuman` (handle for `S1`), a second create
fails with already-exists; after stop, the handle is gone and a restart
fails with not-found. -/
theorem C3_handle_uniqueness_witness :
    mgrHuman.createAgent "S1" =
      { state := mgrHuman, sent := [], published := [], killed := false,
        error := some (.agentAlreadyExists "S1") } ∧
    alookup (mgrHuman.stopAgent "S1").state.agents "S1" = none ∧
    ((mgrHuman.stopAgent "S1").state.startAgent "S1").error =
      some (.agentNotFound "S1") := by
  have h := C3_handle_uniqueness mgrHuman "S1"
    { status := .human_control, hasProcess := true } (by decide) (by decide)
  have h3 := h.2.2 rfl
  exact ⟨h.1 rfl, h3.2.1, by rw [h3.2.2.2]⟩

/-- Claim C8: subscribe-then-unsubscribe round trip, for both the
EventBus session-wide registry and the client bridge per-type registry:
the first unsubscribe with the returned id removes the entry (returns
true and restores the registry's entry list), a second unsubscribe with
the same id returns false and leaves the state untouched, and an
unsubscribe whose id is not present returns false and modifies no
registry state. -/
theorem C8_unsubscribe_roundtrip
    (bus : EventBus) (sid : String) (cb : Nat)
    (hfresh : bus.nextId ∉ ((alookup bus.subscribers sid).getD []).map Prod.fst)
    (ws : WebSocketService) (t : String) (wcb : Nat)
    (hwfresh : ws.nextId ∉ ((alookup ws.eventHandlers t).getD []).map Prod.fst) :
    (((bus.subscribe sid cb).2).unsubscribe sid (bus.subscribe sid cb).1).1 =
      true ∧
    alookup ((((bus.subscribe sid cb).2).unsubscribe sid
        (bus.subscribe sid cb).1).2).subscribers sid =
      some ((alookup bus.subscribers sid).getD []) ∧
    ((((bus.subscribe sid cb).2).unsubscribe sid
        (bus.subscribe sid cb).1).2).unsubscribe sid (bus.subscribe sid cb).1 =
      (false,
       (((bus.subscribe sid cb).2).unsubscribe sid (bus.subscribe sid cb).1).2) ∧
    (∀ subId : Nat,
      subId ∉ ((alookup bus.subscribers sid).getD []).map Prod.fst →
      bus.unsubscribe sid subId = (false, bus)) ∧
    (((ws.subscribe t wcb).2).unsubscribe t (ws.subscribe t wcb).1).1 = true ∧
    alookup ((((ws.subscribe t wcb).2).unsubscribe t
        (ws.subscribe t wcb).1).2).eventHandlers t =
      some ((alookup ws.eventHandlers t).getD []) ∧
    ((((ws.subscribe t wcb).2).unsubscribe t (ws.subscribe t wcb).1).2).unsubscribe
        t (ws.subscribe t wcb).1 =
      (false,
       (((ws.subscribe t wcb).2).unsubscribe t (ws.subscribe t wcb).1).2) ∧
    (∀ subId : Nat,
      subId ∉ ((alookup ws.eventHandlers t).getD []).map Prod.fst →
      ws.unsubscribe t subId = (false, ws)) := by
  have h0 : alookup ((alookup bus.subscribers sid).getD []) bus.nextId = none :=
    (alookup_eq_none_iff _ _).2 hfresh
  have hset : aset ((alookup bus.subscribers sid).getD []) bus.nextId cb =
      (alookup bus.subscribers sid).getD [] ++ [(bus.nextId, cb)] :=
    aset_of_lookup_none _ _ _ h0
  have hlook : alookup ((alookup bus.subscribers sid).getD []
      ++ [(bus.nextId, cb)]) bus.nextId = some cb := by
    rw [alookup_append, h0]
    simp [alookup]
  have herase : aerase ((alookup bus.subscribers sid).getD []
      ++ [(bus.nextId, cb)]) bus.nextId = (alookup bus.subscribers sid).getD [] := by
    rw [aerase_append_of_not_mem _ _ _ hfresh]
    simp [aerase]
  have h0w : alookup ((alookup ws.eventHandlers t).getD []) ws.nextId = none :=
    (alookup_eq_none_iff _ _).2 hwfresh
  have hfil : ((alookup ws.eventHandlers t).getD []
      ++ [(ws.nextId, wcb)]).filter (fun p => p.1 ≠ ws.nextId) =
      (alookup ws.eventHandlers t).getD [] := by
    rw [List.filter_append, filter_ne_of_not_mem _ _ hwfresh]
    simp
  have hfil2 : ((alookup ws.eventHandlers t).getD []).filter
      (fun p => p.1 ≠ ws.nextId) = (alookup ws.eventHandlers t).getD [] :=
    filter_ne_of_not_mem _ _ hwfresh
  refine ⟨?_, ?_, ?_, fun subId hmiss => ?_, ?_, ?_, ?_, fun subId hmiss => ?_⟩
  · simp [EventBus.subscribe, EventBus.unsubscribe, hset, alookup_aset_self,
      hlook]
  · simp [EventBus.subscribe, EventBus.unsubscribe, hset, alookup_aset_self,
      herase]
  · simp only [EventBus.subscribe, EventBus.unsubscribe, hset,
      alookup_aset_self, herase]
    rw [aerase_of_lookup_none _ _ h0,
      aset_of_lookup_some _ _ _ (alookup_aset_self _ _ _)]
    simp [h0]
  · cases h : alookup bus.subscribers sid with
    | none => simp [EventBus.unsubscribe, h]
    | some subs =>
        have h0' : alookup subs subId = none :=
          (alookup_eq_none_iff _ _).2 (by simpa [h] using hmiss)
        simp only [EventBus.unsubscribe, h, h0', Option.isSome_none]
        rw [aerase_of_lookup_none _ _ h0', aset_of_lookup_some _ _ _ h]
  · simp only [WebSocketService.subscribe, WebSocketService.unsubscribe,
      alookup_aset_self, hfil, List.length_append, List.length_cons,
      List.length_nil, decide_eq_true_eq]
    omega
  · simp only [WebSocketService.subscribe, WebSocketService.unsubscribe,
      alookup_aset_self, hfil]
  · have hkey : alookup (aset (aset ws.eventHandlers t
        ((alookup ws.eventHandlers t).getD [] ++ [(ws.nextId, wcb)])) t
        ((alookup ws.eventHandlers t).getD [])) t =
        some ((alookup ws.eventHandlers t).getD []) :=
      alookup_aset_self _ _ _
    simp only [WebSocketService.subscribe, WebSocketService.unsubscribe,
      alookup_aset_self, hfil, hfil2, aset_of_lookup_some _ _ _ hkey]
    simp
  · cases h : alookup ws.eventHandlers t with
    | none => simp [WebSocketService.unsubscribe, h]
    | some handlers =>
        have hf : handlers.filter (fun p => p.1 ≠ subId) = handlers :=
          filter_ne_of_not_mem _ _ (by simpa [h] using hmiss)
        simp only [WebSocketService.unsubscribe, h, hf]
        rw [aset_of_lookup_some _ _ _ h]
        simp

/-- Claim C8 witness: the round trip evaluated on the empty bus and the
constructor-state bridge. -/
theorem C8_unsubscribe_roundtrip_witness :
    (((EventBus.empty.subscribe "S1" 3).2).unsubscribe "S1"
        (EventBus.empty.subscribe "S1" 3).1).1 = true ∧
    EventBus.empty.unsubscribe "S1" 99 = (false, EventBus.empty) ∧
    (((WebSocketService.init.subscribe "agent_event" 4).2).unsubscribe
        "agent_event" (WebSocketService.init.subscribe "agent_event" 4).1).1 =
      true ∧
    WebSocketService.init.unsubscribe "agent_event" 99 =
      (false, WebSocketService.init) := by
  have h := C8_unsubscribe_roundtrip EventBus.empty "S1" 3 (by decide)
    WebSocketService.init "agent_event" 4 (by decide)
  exact ⟨h.1, h.2.2.2.1 99 (by decide), h.2.2.2.2.1,
    h.2.2.2.2.2.2.2 99 (by decide)⟩

/-- Claim C1: a successful `executeHumanTool` call sends the
`tool_execution` frame and registers its result handler; frames whose
type or execution id do not match leave the correlation untouched (so the
promise settles only on a frame carrying this call's execution id — any
sequence of non-matching frames leaves it unsettled); on the first
matching frame the handler runs once, the event-type subscription is
removed from the bus and the timeout cancelled, and the promise resolves
with the frame's `result` when its `error` field is absent and rejects
with that error when present; a later duplicate frame with the same
execution id then changes nothing (no second resolution). -/
theorem C1_tool_correlation
    (m : AgentManager) (bus : EventBus) (sid toolName execId : String)
    (cbId : Nat) (agent : AgentHandle)
    (hag : alookup m.agents sid = some agent)
    (hst : agent.status = AgentStatus.human_control)
    (hconn : alookup m.connections sid = some ())
    (hcb1 : cbId ∉ bus.sessionCallbacks sid)
    (hcb2 : cbId ∉ bus.typedCallbacks sid "tool_execution_result")
    (hid : bus.nextId ∉
      (bus.typedSubs sid "tool_execution_result").map Prod.fst) :
    m.executeHumanTool bus sid toolName execId cbId =
      { mgr := m, bus := (toolStartState bus sid execId cbId).1,
        sent := [Frame.tool_execution execId toolName],
        corr := some (toolStartState bus sid execId cbId).2,
        error := none } ∧
    (∀ e : Event,
      ¬(e.type = "tool_execution_result" ∧ e.executionId = some execId) →
      deliverFrame (toolStartState bus sid execId cbId) e =
        toolStartState bus sid execId cbId) ∧
    (∀ fs : List Event,
      (∀ e ∈ fs,
        ¬(e.type = "tool_execution_result" ∧ e.executionId = some execId)) →
      fs.foldl deliverFrame (toolStartState bus sid execId cbId) =
        toolStartState bus sid execId cbId) ∧
    (∀ e : Event,
      e.type = "tool_execution_result" → e.executionId = some execId →
      (cbId ∈ (toolStartState bus sid execId cbId).1.publishCallbacks sid e ∧
       (deliverFrame (toolStartState bus sid execId cbId) e).2.timeoutActive =
         false ∧
       cbId ∉
         ((deliverFrame (toolStartState bus sid execId cbId) e).1).typedCallbacks
           sid "tool_execution_result" ∧
       cbId ∉
         ((deliverFrame (toolStartState bus sid execId cbId) e).1).sessionCallbacks
           sid ∧
       (e.error = none →
         (deliverFrame (toolStartState bus sid execId cbId) e).2.settled =
           some (ToolOutcome.resolvedWith e.result)) ∧
       (∀ msg : String, e.error = some msg →
         (deliverFrame (toolStartState bus sid execId cbId) e).2.settled =
           some (ToolOutcome.rejectedWith msg)))) ∧
    (∀ e e' : Event,
      e.type = "tool_execution_result" → e.executionId = some execId →
      e'.type = "tool_execution_result" → e'.executionId = some execId →
      deliverFrame (deliverFrame (toolStartState bus sid execId cbId) e) e' =
        deliverFrame (toolStartState bus sid execId cbId) e) := by
  have hts :
      ((bus.subscribeToEvent sid "tool_execution_result" cbId).2).typedSubs sid
        "tool_execution_result" =
      bus.typedSubs sid "tool_execution_result" ++ [(bus.nextId, cbId)] :=
    typedSubs_subscribeToEvent_self bus sid _ cbId hid
  have hu := unsub_after_sub bus sid "tool_execution_result" cbId hid hcb2
  have part1 : m.executeHumanTool bus sid toolName execId cbId =
      { mgr := m, bus := (toolStartState bus sid execId cbId).1,
        sent := [Frame.tool_execution execId toolName],
        corr := some (toolStartState bus sid execId cbId).2,
        error := none } := by
    simp [AgentManager.executeHumanTool, hag, hst, hconn, toolStartState]
    rfl
  have hmain2 : ∀ e : Event,
      ¬(e.type = "tool_execution_result" ∧ e.executionId = some execId) →
      deliverFrame (toolStartState bus sid execId cbId) e =
        toolStartState bus sid execId cbId := by
    intro e he
    by_cases hmem : cbId ∈
        ((bus.subscribeToEvent sid "tool_execution_result" cbId).2).publishCallbacks
          sid e
    · simp [deliverFrame, toolStartState, handleToolResult, hmem, he]
    · simp [deliverFrame, toolStartState, hmem]
  have hmain3 : ∀ fs : List Event,
      (∀ e ∈ fs,
        ¬(e.type = "tool_execution_result" ∧ e.executionId = some execId)) →
      fs.foldl deliverFrame (toolStartState bus sid execId cbId) =
        toolStartState bus sid execId cbId := by
    intro fs
    induction fs with
    | nil => intro _; rfl
    | cons e rest ih =>
        intro h
        rw [List.foldl_cons, hmain2 e (h e (List.mem_cons_self e rest))]
        exact ih fun e' he' => h e' (List.mem_cons_of_mem e he')
  have hinv : ∀ e : Event, e.type = "tool_execution_result" →
      cbId ∈
        ((bus.subscribeToEvent sid "tool_execution_result" cbId).2).publishCallbacks
          sid e := by
    intro e he
    rw [publishCallbacks_eq, he]
    refine List.mem_append.2 (Or.inr ?_)
    simp only [EventBus.typedCallbacks, hts, List.map_append]
    simp
  have hdeliver : ∀ e : Event, e.type = "tool_execution_result" →
      e.executionId = some execId →
      deliverFrame (toolStartState bus sid execId cbId) e =
        ((((bus.subscribeToEvent sid "tool_execution_result" cbId).2).unsubscribeFromEvent
            sid "tool_execution_result" cbId).2,
         { sessionId := sid, execId := execId, cbId := cbId,
           subId := bus.nextId, timeoutActive := false,
           settled :=
             match e.error with
             | some msg => some (.rejectedWith msg)
             | none => some (.resolvedWith e.result) }) := by
    intro e h1 h2
    simp [deliverFrame, toolStartState, handleToolResult, hinv e h1, h1, h2]
  have hnm2 : ∀ e' : Event, e'.type = "tool_execution_result" →
      cbId ∉
        ((((bus.subscribeToEvent sid "tool_execution_result" cbId).2).unsubscribeFromEvent
            sid "tool_execution_result" cbId).2).publishCallbacks sid e' := by
    intro e' h1'
    rw [publishCallbacks_eq, h1', hu.2.2 sid]
    intro hmem
    rcases List.mem_append.1 hmem with hmem | hmem
    · exact hcb1 hmem
    · apply hcb2
      simp only [EventBus.typedCallbacks, hu.2.1] at hmem
      exact hmem
  refine ⟨part1, hmain2, hmain3, fun e h1 h2 => ⟨hinv e h1, ?_, ?_, ?_, ?_, ?_⟩,
    fun e e' h1 h2 h1' h2' => ?_⟩
  · rw [hdeliver e h1 h2]
  · rw [hdeliver e h1 h2]
    intro hmem
    apply hcb2
    simp only [EventBus.typedCallbacks, hu.2.1] at hmem
    exact hmem
  · rw [hdeliver e h1 h2]
    intro hmem
    apply hcb1
    rw [hu.2.2 sid] at hmem
    exact hmem
  · intro herr
    rw [hdeliver e h1 h2, herr]
  · intro msg herr
    rw [hdeliver e h1 h2, herr]
  · rw [hdeliver e h1 h2]
    simp [deliverFrame, hnm2 e' h1']

/-- Claim C1 witness: the correlation theorem evaluated on `mgrHuman`
with execution id `T1` — a matching result frame resolves the promise
with its result, redelivering the same frame changes nothing, and an
unrelated frame leaves the correlation untouched. -/
theorem C1_tool_correlation_witness :
    (deliverFrame (toolStartState EventBus.empty "S1" "T1" 0)
        { type := "tool_execution_result", executionId := some "T1",
          error := none, result := some "ok" }).2.settled =
      some (ToolOutcome.resolvedWith (some "ok")) ∧
    deliverFrame
        (deliverFrame (toolStartState EventBus.empty "S1" "T1" 0)
          { type := "tool_execution_result", executionId := some "T1",
            error := none, result := some "ok" })
        { type := "tool_execution_result", executionId := some "T1",
          error := none, result := some "ok" } =
      deliverFrame (toolStartState EventBus.empty "S1" "T1" 0)
        { type := "tool_execution_result", executionId := some "T1",
          error := none, result := some "ok" } ∧
    deliverFrame (toolStartState EventBus.empty "S1" "T1" 0)
        { type := "agent_output", executionId := none, error := none,
          result := none } =
      toolStartState EventBus.empty "S1" "T1" 0 := by
  have h := C1_tool_correlation mgrHuman EventBus.empty "S1" "browser" "T1" 0
    { status := .human_control, hasProcess := true } rfl rfl rfl
    (by decide) (by decide) (by decide)
  exact ⟨(h.2.2.2.1 _ rfl rfl).2.2.2.2.1 rfl,
    h.2.2.2.2 _ _ rfl rfl rfl rfl, h.2.1 _ (by decide)⟩
